import Mathlib

/-!
Shallow embedding of the Lox evaluation core of this repository:
`src/lox/ast.py` (AST node classes and their `eval` methods),
`src/lox/runtime.py` (`LoxReturn`, `LoxFunction`, truthiness helpers) and
`src/lox/transformer.py` (the operator wiring and the `for` desugaring).

Modelling conventions, stated once:

* Lox numbers are Python floats.  They are modelled as exact fractions
  (`Q`: integer numerator over positive natural denominator, compared by
  cross-multiplication).  Every numeric literal the front end produces is a
  dyadic rational, and all arithmetic the claims exercise is exact at double
  precision, so the idealisation is faithful on those runs; non-finite
  floats (inf/nan) are outside the model.  Python ints that arise from
  `int(value)` or bool arithmetic are modelled as numbers as well.
* The environment class `Ctx` lives in `src/lox/ctx.py`, which is not under
  `src/`; its operations are modelled from the spec (section 4.1) and are
  marked `Modelled from the spec:` at their definitions.  The in-place
  mutation of the scope dictionaries is rendered as explicit state
  threading: every operation returns the updated chain, and a block drops
  the scope it pushed while keeping mutations made to outer scopes.
* Host exceptions are a signal channel threaded through evaluation
  (`Sig`): the Lox return signal, runtime errors, and stack exhaustion
  (Python's RecursionError), the last doubling as the fuel bound that makes
  the interpreter total.
-/

namespace Lox

/-- Exact fraction model of a Python float: numerator over positive
denominator, not kept reduced; equality and order are by
cross-multiplication, so equal fractions are one value observationally. -/
structure Q where
  n : Int
  d : Nat := 1
deriving DecidableEq

/-- Python `==` on two float values. -/
def Q.beq (a b : Q) : Bool := a.n * b.d == b.n * a.d

/-- Python `<` on two float values. -/
def Q.blt (a b : Q) : Bool := a.n * b.d < b.n * a.d

/-- Python `<=` on two float values. -/
def Q.ble (a b : Q) : Bool := a.n * b.d ≤ b.n * a.d

/-- Python `+` on two float values. -/
def Q.add (a b : Q) : Q := ⟨a.n * b.d + b.n * a.d, a.d * b.d⟩

/-- Python `-` on two float values. -/
def Q.sub (a b : Q) : Q := ⟨a.n * b.d - b.n * a.d, a.d * b.d⟩

/-- Python `*` on two float values. -/
def Q.mul (a b : Q) : Q := ⟨a.n * b.n, a.d * b.d⟩

/-- Python unary `-` on a float value. -/
def Q.neg (a : Q) : Q := ⟨-a.n, a.d⟩

/-- Python `/` on two float values; the caller guards the zero divisor. -/
def Q.div (a b : Q) : Q :=
  if b.n < 0 then ⟨-(a.n * b.d), a.d * b.n.natAbs⟩ else ⟨a.n * b.d, a.d * b.n.natAbs⟩

/-- Python `float.is_integer`: the value is mathematically integral. -/
def Q.isInteger (a : Q) : Bool := a.n.emod a.d == 0

/-- Python `int(value)` on an integral float (exact truncation). -/
def Q.toInt (a : Q) : Int := a.n.tdiv a.d

/-- Whether the float is zero (`bool(0.0)` is False in Python). -/
def Q.isZero (a : Q) : Bool := a.n == 0

/-- Literal constants as produced by the front end's NUMBER / STRING / NIL /
BOOL rules (`transformer.py` lines 145-157): every number literal is a
float. -/
inductive Prim where
  | bool (b : Bool)
  | num (q : Q)
  | str (s : String)
  | nil
deriving DecidableEq

/-- The binary operator objects wired into `BinOp` nodes by
`transformer.py` (lines 46-57): the ten callables imported from the
`operator` module, a closed enumeration. -/
inductive BinOpName where
  | add | sub | mul | truediv | gt | lt | ge | le | eq | ne
deriving DecidableEq

/-- The unary operator objects wired into `UnaryOp` nodes by
`transformer.py` (lines 73-77): `operator.neg` and `operator.not_`. -/
inductive UnaryOpName where
  | neg | not_
deriving DecidableEq

/-- Expression nodes of `src/lox/ast.py` that have evaluation semantics and a
front-end producer.  `Getattr` is omitted (no claim concerns it) and
`This` / `Super` have no `eval` in the source.  A `Call`'s `op` field pair:
`obj` is the callee, `params` the argument expressions. -/
inductive Expr where
  | Literal (value : Prim)
  | Var (name : String)
  | BinOp (left : Expr) (right : Expr) (op : BinOpName)
  | And (left : Expr) (right : Expr)
  | Or (left : Expr) (right : Expr)
  | UnaryOp (op : UnaryOpName) (value : Expr)
  | Call (obj : Expr) (params : List Expr)
  | Assign (name : String) (value : Expr)
  | Setattr (obj : Expr) (attr : String) (value : Expr)

/-- Statement nodes of `src/lox/ast.py`.  `transformer.expr_stmt` returns the
bare expression, which then sits in a statement list and is evaluated by duck
typing; `exprStmt` is that embedding.  A `Block` is its statement list; a
`Function` declaration carries name, parameter names and body block. -/
inductive Stmt where
  | exprStmt (e : Expr)
  | Print (expr : Expr)
  | Return (expr : Option Expr)
  | VarDef (name : String) (value : Option Expr)
  | If (cond : Expr) (then_branch : Stmt) (else_branch : Option Stmt)
  | While (expr : Expr) (stmt : Stmt)
  | Block (stmts : List Stmt)
  | Function (name : String) (params : List String) (body : List Stmt)

/-- Runtime values (`Value = bool | str | float | None` in `ast.py`, plus
`LoxFunction` from `runtime.py`).  A function value carries the dataclass
fields of `LoxFunction`: name, parameter names, body block, and the captured
context, the last modelled as the scope chain it references. -/
inductive Value where
  | bool (b : Bool)
  | num (q : Q)
  | str (s : String)
  | nil
  | fn (name : String) (params : List String) (body : List Stmt)
       (ctx : List (List (String × Value)))

/-- A single scope: the name-to-value mapping of one `Ctx` layer. -/
abbrev Scope := List (String × Value)

/-- The scope chain, innermost first. -/
abbrev Env := List Scope

/-- `Literal.eval` returns the embedded constant (`ast.py` lines 108-109). -/
def Prim.toValue : Prim → Value
  | .bool b => .bool b
  | .num q => .num q
  | .str s => .str s
  | .nil => .nil

/-- `ast.py` `is_truthy` (lines 112-113): Lox truthiness — only `False` and
`None` are falsy.  Used by `And.eval` and `Or.eval`. -/
def is_truthy : Value → Bool
  | .bool false => false
  | .nil => false
  | _ => true

/-- Python's built-in truth test `bool(value)`, which is what `If.eval`
(`if self.cond.eval(ctx):`, `ast.py` line 320) and `While.eval`
(`while bool(self.expr.eval(ctx)):`, line 338) actually apply to the
condition value: `False`, `None`, `0.0` and empty text are falsy; every
other value, including every `LoxFunction`, is truthy. -/
def pyTruthy : Value → Bool
  | .bool b => b
  | .num q => !q.isZero
  | .str s => !(s == "")
  | .nil => false
  | .fn _ _ _ _ => true

mutual

/-- Structural equality on expressions (the field-wise `==` of the AST
dataclasses), needed to model `LoxFunction`'s dataclass equality. -/
def beqE : Expr → Expr → Bool
  | .Literal p, .Literal p' => p == p'
  | .Var n, .Var n' => n == n'
  | .BinOp l r o, .BinOp l' r' o' => beqE l l' && beqE r r' && o == o'
  | .And l r, .And l' r' => beqE l l' && beqE r r'
  | .Or l r, .Or l' r' => beqE l l' && beqE r r'
  | .UnaryOp o v, .UnaryOp o' v' => o == o' && beqE v v'
  | .Call f a, .Call f' a' => beqE f f' && beqEs a a'
  | .Assign n v, .Assign n' v' => n == n' && beqE v v'
  | .Setattr o a v, .Setattr o' a' v' => beqE o o' && a == a' && beqE v v'
  | _, _ => false

/-- Structural equality on expression lists. -/
def beqEs : List Expr → List Expr → Bool
  | [], [] => true
  | e :: r, e' :: r' => beqE e e' && beqEs r r'
  | _, _ => false

end

mutual

/-- Structural equality on statements (field-wise dataclass `==`). -/
def beqS : Stmt → Stmt → Bool
  | .exprStmt e, .exprStmt e' => beqE e e'
  | .Print e, .Print e' => beqE e e'
  | .Return (some e), .Return (some e') => beqE e e'
  | .Return none, .Return none => true
  | .VarDef n (some e), .VarDef n' (some e') => n == n' && beqE e e'
  | .VarDef n none, .VarDef n' none => n == n'
  | .If c t (some e), .If c' t' (some e') => beqE c c' && beqS t t' && beqS e e'
  | .If c t none, .If c' t' none => beqE c c' && beqS t t'
  | .While c b, .While c' b' => beqE c c' && beqS b b'
  | .Block ss, .Block ss' => beqSs ss ss'
  | .Function n p b, .Function n' p' b' => n == n' && p == p' && beqSs b b'
  | _, _ => false

/-- Structural equality on statement lists. -/
def beqSs : List Stmt → List Stmt → Bool
  | [], [] => true
  | s :: r, s' :: r' => beqS s s' && beqSs r r'
  | _, _ => false

end

mutual

/-- Structural equality on values, modelling the dataclass field-wise `==`
of `LoxFunction`.  Python compares the captured `Ctx` object by host object
identity (the default `object.__eq__`, `ctx.py` defining no other); object
identity has no counterpart in a pure model, so the context field is
compared structurally here.  No claim depends on function-to-function
equality. -/
def beqV : Value → Value → Bool
  | .bool a, .bool b => a == b
  | .num p, .num q => p == q
  | .str s, .str t => s == t
  | .nil, .nil => true
  | .fn n p b c, .fn n' p' b' c' => n == n' && p == p' && beqSs b b' && beqCtx c c'
  | _, _ => false

/-- Structural equality on scope chains. -/
def beqCtx : List (List (String × Value)) → List (List (String × Value)) → Bool
  | [], [] => true
  | s :: r, s' :: r' => beqScope s s' && beqCtx r r'
  | _, _ => false

/-- Structural equality on scopes. -/
def beqScope : List (String × Value) → List (String × Value) → Bool
  | [], [] => true
  | (k, v) :: r, (k', v') :: r' => k == k' && beqV v v' && beqScope r r'
  | _, _ => false

end

/-- The value kind, for stating the cross-kind equality claim. -/
inductive Kind where
  | bool | num | str | nil | fn
deriving DecidableEq

/-- Kind of a runtime value. -/
def kind : Value → Kind
  | .bool _ => .bool
  | .num _ => .num
  | .str _ => .str
  | .nil => .nil
  | .fn _ _ _ _ => .fn

/-- Whether the pair is a boolean compared with a number (in either order),
the one cross-kind pairing Python `==` does not treat as simply unequal. -/
def boolNumPair : Value → Value → Bool
  | .bool _, .num _ => true
  | .num _, .bool _ => true
  | _, _ => false

/-- Python `==` (`operator.eq`) on two runtime values.  `bool` is an `int`
subclass in Python, so booleans compare numerically equal to numbers
(`True == 1.0` holds); every other cross-kind pair is unequal; same-kind
pairs compare by value; two `LoxFunction` dataclasses compare field-wise
(see `beqV` for the context caveat).  Total: Python `==` never raises on
these operands. -/
def pyEq : Value → Value → Bool
  | .bool a, .bool b => a == b
  | .bool a, .num q => Q.beq ⟨if a then 1 else 0, 1⟩ q
  | .num q, .bool a => Q.beq q ⟨if a then 1 else 0, 1⟩
  | .num p, .num q => Q.beq p q
  | .str s, .str t => s == t
  | .nil, .nil => true
  | .fn n p b c, .fn n' p' b' c' => beqV (.fn n p b c) (.fn n' p' b' c')
  | _, _ => false

/-- Runtime error conditions: the host exceptions the source raises.
`nameError` is `Var.eval`'s NameError and the undefined-name condition on
assignment; `typeError` the TypeError of unsupported operands;
`attributeError` a missing attribute (its name recorded); `zeroDivision`
Python's ZeroDivisionError on float division by zero; `runtimeError` the
RuntimeError carrying the arity message in `LoxFunction`. -/
inductive RErr where
  | nameError (name : String)
  | typeError (msg : String)
  | attributeError (attr : String)
  | zeroDivision
  | runtimeError (msg : String)
deriving DecidableEq

/-- The signal channel: the Lox return signal (`LoxReturn` — note that the
class defines `init`, not `__init__`, so the payload lands in the exception
`args` tuple and no `value` attribute is ever stored on the instance), a
runtime error, or host stack exhaustion (RecursionError; this constructor
also absorbs fuel exhaustion of the model). -/
inductive Sig where
  | ret (v : Value)
  | err (e : RErr)
  | stackOverflow

/-- Python numeric coercion of an operand for arithmetic and ordering:
booleans are the ints 0 and 1, numbers are themselves, nothing else
coerces. -/
def asNum : Value → Option Q
  | .bool b => some ⟨if b then 1 else 0, 1⟩
  | .num q => some q
  | _ => none

/-- Semantics of the `operator`-module callables stored in `BinOp` nodes,
applied as `BinOp.eval` applies them (`ast.py` line 77): numeric arithmetic
and ordering with bools as 0/1, text concatenation, text repetition by a
bool, lexicographic text ordering, total `==` / `!=` via `pyEq`, TypeError
on unsupported operand kinds, ZeroDivisionError on division by zero (Python
floats raise rather than produce an infinity). -/
def applyB : BinOpName → Value → Value → Except RErr Value
  | .eq, a, b => .ok (.bool (pyEq a b))
  | .ne, a, b => .ok (.bool (!pyEq a b))
  | .add, a, b =>
    match a, b with
    | .str s, .str t => .ok (.str (s ++ t))
    | _, _ =>
      match asNum a, asNum b with
      | some p, some q => .ok (.num (p.add q))
      | _, _ => .error (.typeError "unsupported operand type(s) for +")
  | .sub, a, b =>
    match asNum a, asNum b with
    | some p, some q => .ok (.num (p.sub q))
    | _, _ => .error (.typeError "unsupported operand type(s) for -")
  | .mul, a, b =>
    match a, b with
    | .str s, .bool c => .ok (.str (if c then s else ""))
    | .bool c, .str s => .ok (.str (if c then s else ""))
    | _, _ =>
      match asNum a, asNum b with
      | some p, some q => .ok (.num (p.mul q))
      | _, _ => .error (.typeError "unsupported operand type(s) for *")
  | .truediv, a, b =>
    match asNum a, asNum b with
    | some p, some q =>
      if q.isZero then .error .zeroDivision else .ok (.num (p.div q))
    | _, _ => .error (.typeError "unsupported operand type(s) for /")
  | .gt, a, b =>
    match a, b with
    | .str s, .str t => .ok (.bool (decide (t < s)))
    | _, _ =>
      match asNum a, asNum b with
      | some p, some q => .ok (.bool (Q.blt q p))
      | _, _ => .error (.typeError "unsupported operand type(s) for >")
  | .lt, a, b =>
    match a, b with
    | .str s, .str t => .ok (.bool (decide (s < t)))
    | _, _ =>
      match asNum a, asNum b with
      | some p, some q => .ok (.bool (Q.blt p q))
      | _, _ => .error (.typeError "unsupported operand type(s) for <")
  | .ge, a, b =>
    match a, b with
    | .str s, .str t => .ok (.bool (decide (t ≤ s)))
    | _, _ =>
      match asNum a, asNum b with
      | some p, some q => .ok (.bool (Q.ble q p))
      | _, _ => .error (.typeError "unsupported operand type(s) for >=")
  | .le, a, b =>
    match a, b with
    | .str s, .str t => .ok (.bool (decide (s ≤ t)))
    | _, _ =>
      match asNum a, asNum b with
      | some p, some q => .ok (.bool (Q.ble p q))
      | _, _ => .error (.typeError "unsupported operand type(s) for <=")

/-- Semantics of `operator.neg` and `operator.not_` as `UnaryOp.eval`
applies them (`ast.py` line 159): `neg` is numeric negation (bools negate
as their 0/1 int value); `not_` is Python `not`, the negation of PYTHON
truthiness — not of Lox truthiness, so `not_ 0.0` is `True`. -/
def applyU : UnaryOpName → Value → Except RErr Value
  | .neg, v =>
    match asNum v with
    | some q => .ok (.num q.neg)
    | none => .error (.typeError "bad operand type for unary -")
  | .not_, v => .ok (.bool (!pyTruthy v))

/-- First binding of the name in one scope dictionary. -/
def scopeGet : Scope → String → Option Value
  | [], _ => none
  | (k, v) :: rest, name => if k == name then some v else scopeGet rest name

/-- Overwrite the binding of the name in one scope dictionary, or add it. -/
def scopeSet : Scope → String → Value → Scope
  | [], name, v => [(name, v)]
  | (k, w) :: rest, name, v =>
    if k == name then (k, v) :: rest else (k, w) :: scopeSet rest name v

/-- Whether one scope dictionary binds the name. -/
def scopeHas (s : Scope) (name : String) : Bool := (scopeGet s name).isSome

/-- Modelled from the spec: `Ctx.__getitem__` lives in `src/lox/ctx.py`,
which is not under `src/`; section 4.1 specifies lookup as walking from the
innermost scope outward and returning the first binding, failing with the
undefined-name condition (here `none`) if no scope binds the name. -/
def lookup : Env → String → Option Value
  | [], _ => none
  | s :: rest, name =>
    match scopeGet s name with
    | some v => some v
    | none => lookup rest name

/-- Modelled from the spec: `Ctx.__setitem__` (src/lox/ctx.py, absent);
section 4.1 specifies assignment as walking outward to the scope that
already binds the name and mutating that binding in place (returned here as
the updated chain), failing with the undefined-name condition (`none`) if
no enclosing scope binds it — assignment never declares. -/
def assign : Env → String → Value → Option Env
  | [], _, _ => none
  | s :: rest, name, v =>
    if scopeHas s name then some (scopeSet s name v :: rest)
    else (assign rest name v).map (fun e => s :: e)

/-- Modelled from the spec: `Ctx.var_def` (src/lox/ctx.py, absent); section
4.1 specifies declaration as binding in the current innermost scope only,
overwriting any existing binding of that scope. -/
def var_def : Env → String → Value → Env
  | [], name, v => [[(name, v)]]
  | s :: rest, name, v => scopeSet s name v :: rest

/-- Evaluation state: the scope chain and the lines printed so far (the
output collaborator of the spec, one list entry per emitted line). -/
structure St where
  env : Env
  out : List String

/-- Result of evaluating one node: a value or an in-flight signal, with the
state as mutated up to that point. -/
abbrev Res := Except Sig Value × St

mutual

/-- `Expr.eval(ctx)` of each expression class of `ast.py`.  Structurally
recursive on the expression: no expression ever evaluates a statement,
because `Call.eval` (lines 172-178) never reaches a function body —
`callable(obj)` is `False` for every runtime value (`bool`, `float`, `str`
and `None` are not callable, and `LoxFunction` defines no `__call__`: both
of its methods are named `call`), so every call takes the
`raise TypeError(f"{self.name} ...")` branch, whose f-string reads
`self.name` first; `Call` declares no `name` field (its fields are `obj`
and `params`), and the `Node` base class (src/lox/node.py, absent from
src/) is, per the spec, only pretty-printing / cursor / visitor support, so
the attribute is missing and building the message raises AttributeError
for `name`.  `Setattr.eval` (lines 241-245) evaluates the target, then the
value, then calls `setattr`: on a `LoxFunction` target (a plain dataclass
instance) the write succeeds — the stored field itself is not observable in
this model since no claim and no embedded construct reads attributes
back — while `bool`, `float`, `str` and `None` targets raise
AttributeError. -/
def evalE : Expr → St → Res
  | .Literal p, st => (.ok p.toValue, st)
  | .Var name, st =>
    match lookup st.env name with
    | some v => (.ok v, st)
    | none => (.error (.err (.nameError name)), st)
  | .Assign name e, st =>
    match evalE e st with
    | (.ok v, st₁) =>
      match assign st₁.env name v with
      | some env₂ => (.ok v, ⟨env₂, st₁.out⟩)
      | none => (.error (.err (.nameError name)), st₁)
    | r => r
  | .BinOp l r op, st =>
    match evalE l st with
    | (.ok lv, st₁) =>
      match evalE r st₁ with
      | (.ok rv, st₂) =>
        match applyB op lv rv with
        | .ok v => (.ok v, st₂)
        | .error e => (.error (.err e), st₂)
      | r₂ => r₂
    | r₁ => r₁
  | .And l r, st =>
    match evalE l st with
    | (.ok lv, st₁) => if is_truthy lv then evalE r st₁ else (.ok lv, st₁)
    | r₁ => r₁
  | .Or l r, st =>
    match evalE l st with
    | (.ok lv, st₁) => if is_truthy lv then (.ok lv, st₁) else evalE r st₁
    | r₁ => r₁
  | .UnaryOp op e, st =>
    match evalE e st with
    | (.ok v, st₁) =>
      match applyU op v with
      | .ok w => (.ok w, st₁)
      | .error er => (.error (.err er), st₁)
    | r₁ => r₁
  | .Call f args, st =>
    match evalE f st with
    | (.ok _, st₁) =>
      match evalArgs args st₁ with
      | (.ok _, st₂) => (.error (.err (.attributeError "name")), st₂)
      | (.error s, st₂) => (.error s, st₂)
    | r₁ => r₁
  | .Setattr o attr e, st =>
    match evalE o st with
    | (.ok ov, st₁) =>
      match evalE e st₁ with
      | (.ok v, st₂) =>
        match ov with
        | .fn _ _ _ _ => (.ok v, st₂)
        | _ => (.error (.err (.attributeError attr)), st₂)
      | r₂ => r₂
    | r₁ => r₁

/-- The argument list comprehension of `Call.eval`
(`[param.eval(ctx) for param in self.params]`): left-to-right, stopping at
the first signal. -/
def evalArgs : List Expr → St → Except Sig (List Value) × St
  | [], st => (.ok [], st)
  | e :: rest, st =>
    match evalE e st with
    | (.ok v, st₁) =>
      match evalArgs rest st₁ with
      | (.ok vs, st₂) => (.ok (v :: vs), st₂)
      | (.error s, st₂) => (.error s, st₂)
    | (.error s, st₁) => (.error s, st₁)

end

/-- A decimal digit character (call sites pass `k < 10`). -/
def digitChar (k : Nat) : Char := Char.ofNat (48 + k)

/-- Decimal digits of a natural number, most significant first; the fuel
`n + 1` always suffices for input `n`. -/
def natDigits : Nat → Nat → List Char
  | 0, _ => []
  | fuel + 1, n =>
    if n < 10 then [digitChar n]
    else natDigits fuel (n / 10) ++ [digitChar (n % 10)]

/-- Python `str` / `print` of an int: the decimal digits, minus-signed when
negative.  This is what `print(int(value))` emits for an integral float. -/
def intStr (i : Int) : String :=
  String.mk ((if i < 0 then ['-'] else []) ++ natDigits (i.natAbs + 1) i.natAbs)

/-- Fraction digits of `r / d` (with `r < d`), most significant first,
stopping when the remainder vanishes; 60 digits of fuel cover every
terminating expansion a double-precision literal can produce. -/
def fracDigits : Nat → Nat → Nat → List Char
  | 0, _, _ => []
  | fuel + 1, r, d =>
    if r == 0 then []
    else digitChar (r * 10 / d) :: fracDigits fuel (r * 10 % d) d

/-- Python `print(value)` on a non-integral finite float: modelled as the
exact terminating decimal expansion (sign, integer part, point, fraction
digits).  Python prints the shortest decimal that round-trips the IEEE
double; on the dyadic values the claims exercise the two coincide. -/
def pyFloatStr (q : Q) : String :=
  String.mk ((if q.n < 0 then ['-'] else []) ++
    natDigits (q.n.natAbs + 1) (q.n.natAbs / q.d) ++
    '.' :: fracDigits 60 (q.n.natAbs % q.d) q.d)

/-- The formatting chain of `Print.eval` (`ast.py` lines 260-272): `True` →
`"true"`; `False` → `"false"`; `None` → `"nil"`; a float with
`value.is_integer()` → `print(int(value))`; any other value → headed to
`print(value)`, which renders text verbatim and a non-integral number in
its decimal form.  A function value also reaches that final branch and
prints as the host repr of the `LoxFunction` dataclass; its exact text
depends on the absent `node.py` (the body field's repr), so it is modelled
opaquely from the function's name — no claim depends on it. -/
def printStr : Value → String
  | .bool true => "true"
  | .bool false => "false"
  | .nil => "nil"
  | .num q => if q.isInteger then intStr q.toInt else pyFloatStr q
  | .str s => s
  | .fn name _ _ _ => "LoxFunction(name=" ++ name ++ ", ...)"

mutual

/-- `Stmt.eval(ctx)` of each statement class of `ast.py` (an expression in
statement position evaluates as the expression it is, `expr_stmt`).  The
Python methods all return a value (`None` unless stated); fuel decreases on
every statement step and models the host stack / the unbounded `while`.
`If.eval` (line 320) tests the CONDITION VALUE with Python's `if`, i.e.
`pyTruthy`, and returns the executed branch's result; `While.eval` (line
338) likewise uses `bool(...)`; `Block.eval` (lines 352-358) pushes a fresh
scope, runs its statements, and pops the scope on every exit path (its
`finally`), keeping mutations made to outer scopes; `Function.eval` (lines
372-375) builds the `LoxFunction` value capturing the current context,
declares it under the function's name, and returns it; `Return.eval` (lines
284-286) evaluates its expression if present (else `None`) and raises
`LoxReturn`, which nothing in reachable code ever catches. -/
def evalS : Nat → Stmt → St → Res
  | 0, _, st => (.error .stackOverflow, st)
  | fuel + 1, s, st =>
    match s with
    | .exprStmt e => evalE e st
    | .Print e =>
      match evalE e st with
      | (.ok v, st₁) => (.ok .nil, ⟨st₁.env, st₁.out ++ [printStr v]⟩)
      | r₁ => r₁
    | .Return oe =>
      match oe with
      | none => (.error (.ret .nil), st)
      | some e =>
        match evalE e st with
        | (.ok v, st₁) => (.error (.ret v), st₁)
        | r₁ => r₁
    | .VarDef name oe =>
      match oe with
      | none => (.ok .nil, ⟨var_def st.env name .nil, st.out⟩)
      | some e =>
        match evalE e st with
        | (.ok v, st₁) => (.ok .nil, ⟨var_def st₁.env name v, st₁.out⟩)
        | r₁ => r₁
    | .If c t oe =>
      match evalE c st with
      | (.ok cv, st₁) =>
        if pyTruthy cv then evalS fuel t st₁
        else
          match oe with
          | some e => evalS fuel e st₁
          | none => (.ok .nil, st₁)
      | r₁ => r₁
    | .While c b =>
      match evalE c st with
      | (.ok cv, st₁) =>
        if pyTruthy cv then
          match evalS fuel b st₁ with
          | (.ok _, st₂) => evalS fuel (.While c b) st₂
          | r₂ => r₂
        else (.ok .nil, st₁)
      | r₁ => r₁
    | .Block stmts =>
      match evalSeq fuel stmts ⟨[] :: st.env, st.out⟩ with
      | (r, st₁) =>
        match r with
        | .ok _ => (.ok .nil, ⟨st₁.env.tail, st₁.out⟩)
        | sig => (sig, ⟨st₁.env.tail, st₁.out⟩)
    | .Function name params body =>
      let fnv : Value := .fn name params body st.env
      (.ok fnv, ⟨var_def st.env name fnv, st.out⟩)

/-- The statement loop of `Program.eval` and `Block.eval`
(`for stmt in self.stmts: stmt.eval(ctx)`): values discarded, first signal
stops the stream. -/
def evalSeq : Nat → List Stmt → St → Res
  | 0, _, st => (.error .stackOverflow, st)
  | _ + 1, [], st => (.ok .nil, st)
  | fuel + 1, s :: rest, st =>
    match evalS fuel s st with
    | (.ok _, st₁) => evalSeq fuel rest st₁
    | r₁ => r₁

end

/-- `Program.eval` (`ast.py` lines 54-56) against a fresh root context. -/
def evalProgram (fuel : Nat) (stmts : List Stmt) : Res :=
  evalSeq fuel stmts ⟨[[]], []⟩

/-- The tuple values that flow through `LoxFunction`'s bound `call` method:
the argument tuple the caller passes, and the 1-tuple `(args,)` that
`self.call(args)` packs around it on each re-entry. -/
inductive PyTuple where
  | args (vs : List Value)
  | wrap (t : PyTuple)

/-- The method actually bound as `LoxFunction.call`: the SECOND
`def call(self, *args)` in the class body (`runtime.py` lines 35-36)
replaces the first (Python binds the last definition of a name in a class
body).  Its whole body is `return self.call(args)`, which re-invokes this
same method with the 1-tuple `(args,)`: the recursion has no base case, so
no amount of host stack (the fuel) lets it produce anything; Python dies
with RecursionError.  `none` is that non-result. -/
def callMeth : Nat → Value → PyTuple → Option (Except Sig Value)
  | 0, _, _ => none
  | fuel + 1, selfv, t => callMeth fuel selfv (.wrap t)

/-- The FIRST `def call(self, args)` of `LoxFunction` (`runtime.py` lines
20-33), embedded because claims cite its lines — in the running class it is
dead, shadowed by the second `def call`.  Its body: the arity check raising
`RuntimeError("Expected N arguments but got M.")`; a scope pushed on the
captured context with the parameters declared in order; the body block run
inside `try/except LoxReturn as ex: return ex.value`; the scope popped in a
`finally` on every exit path.  Note `except LoxReturn as ex: return
ex.value` cannot work either: `LoxReturn` defines `init`, not `__init__`,
so `LoxReturn(value)` stores the payload only in the exception `args` and
reading `ex.value` raises AttributeError.  Normal completion falls through
and returns `None`. -/
def callShadowed (fuel : Nat) (params : List String) (body : List Stmt)
    (ctx : Env) (args : List Value) (out : List String) : Res :=
  if args.length != params.length then
    (.error (.err (.runtimeError ("Expected " ++ toString params.length ++
      " arguments but got " ++ toString args.length ++ "."))), ⟨ctx, out⟩)
  else
    let entry : Env :=
      (params.zip args).foldl (fun e pa => var_def e pa.1 pa.2) ([] :: ctx)
    match evalSeq fuel body ⟨entry, out⟩ with
    | (.ok _, st₁) => (.ok .nil, ⟨st₁.env.tail, st₁.out⟩)
    | (.error (.ret _), st₁) =>
      (.error (.err (.attributeError "value")), ⟨st₁.env.tail, st₁.out⟩)
    | (.error s, st₁) => (.error s, ⟨st₁.env.tail, st₁.out⟩)

/-- The sentinel `Literal(None)` produced by `for_init` / `for_incr`
(`transformer.py` lines 103-116) when the respective for-clause is absent,
in statement position (`expr_stmt` embedding). -/
def isNoneLiteralStmt : Stmt → Bool
  | .exprStmt (.Literal .nil) => true
  | _ => false

/-- The sentinel `Literal(None)` in expression position. -/
def isNoneLiteralExpr : Expr → Bool
  | .Literal .nil => true
  | _ => false

/-- `LoxTransformer.for_cmd` (`transformer.py` lines 118-135): the for
statement is built, not interpreted — a block holding the initializer (when
not the absent-sentinel) followed by a while loop over the condition whose
body block is the original body's statements (a block body is inlined, a
single statement wrapped) with the increment appended (when not the
absent-sentinel). -/
def for_cmd (init : Stmt) (cond : Expr) (incr : Expr) (body : Stmt) : Stmt :=
  let stmts : List Stmt := if isNoneLiteralStmt init then [] else [init]
  let whileStmts : List Stmt :=
    (match body with
     | .Block ss => ss
     | s => [s]) ++ (if isNoneLiteralExpr incr then [] else [.exprStmt incr])
  .Block (stmts ++ [.While cond (.Block whileStmts)])


/-- The initial state: one empty root scope, no output yet. -/
def st0 : St := ⟨[[]], []⟩

/-- A concrete zero-parameter function value with empty body and root
context, as a `Function` declaration at the root would build it. -/
def fn0 : Value := .fn "f" [] [] [[]]

/-- The condition `i < 3` of the spec's for-loop test program. -/
def forCond : Expr := .BinOp (.Var "i") (.Literal (.num ⟨3, 1⟩)) .lt

/-- The increment `i = i + 1` of the spec's for-loop test program. -/
def forIncr : Expr := .Assign "i" (.BinOp (.Var "i") (.Literal (.num ⟨1, 1⟩)) .add)

/-- `for (var i = 0; i < 3; i = i + 1) print i;` as the transformer
builds it. -/
def forLoop : Stmt :=
  for_cmd (.VarDef "i" (some (.Literal (.num ⟨0, 1⟩)))) forCond forIncr
    (.Print (.Var "i"))

/-- The bound `LoxFunction.call` produces nothing at any stack depth: its
body re-enters itself unconditionally. -/
theorem callMeth_eq_none : ∀ fuel selfv t, callMeth fuel selfv t = none := by
  intro fuel
  induction fuel with
  | zero => intro selfv t; rfl
  | succ n ih => intro selfv t; exact ih selfv (.wrap t)

/-- Digit characters are never the decimal point. -/
theorem digitChar_ne_dot : ∀ k, k < 10 → digitChar k ≠ '.' := by decide

/-- The digit rendering of a natural number never contains a decimal
point. -/
theorem natDigits_no_dot (fuel : Nat) : ∀ n, '.' ∉ natDigits fuel n := by
  induction fuel with
  | zero => intro n; simp [natDigits]
  | succ fuel ih =>
    intro n
    simp only [natDigits]
    split
    · next h =>
      simp only [List.mem_singleton]
      intro hc
      exact digitChar_ne_dot n h hc.symm
    · next h =>
      intro hmem
      rcases List.mem_append.mp hmem with h₁ | h₂
      · exact ih _ h₁
      · simp only [List.mem_singleton] at h₂
        exact digitChar_ne_dot (n % 10) (Nat.mod_lt _ (by decide)) h₂.symm

/-- The integer rendering `print(int(value))` emits never contains a
decimal point. -/
theorem intStr_no_dot (i : Int) : '.' ∉ (intStr i).data := by
  unfold intStr
  intro h
  rcases List.mem_append.mp h with h₁ | h₂
  · split at h₁ <;> simp at h₁
  · exact natDigits_no_dot _ _ h₂

/-- Claim C1 (code_bug): the claim states the intended call protocol, but
the method actually bound as `LoxFunction.call` (`callMeth`, the second
`def call` in the class body) returns nothing for any function value,
argument tuple and stack budget — its body only re-enters itself, so the
return signal is never caught and no call ever yields a value.  Even the
shadowed first `def call` (`callShadowed`) cannot yield the carried value:
on the body `return 1;` it raises AttributeError for `value`, because
`LoxReturn.init` is not `__init__` and the instance never gets a `value`
attribute.  Only the completes-without-return half survives there: a body
without `return` falls through to `None`. -/
theorem C1_return_protocol_broken :
    (∀ fuel selfv t, callMeth fuel selfv t = none) ∧
    callShadowed 9 [] [.Return (some (.Literal (.num ⟨1, 1⟩)))] [[]] [] [] =
      (.error (.err (.attributeError "value")), ⟨[[]], []⟩) ∧
    callShadowed 9 [] [.Print (.Literal (.str "hi"))] [[]] [] [] =
      (.ok .nil, ⟨[[]], ["hi"]⟩) :=
  ⟨callMeth_eq_none, rfl, rfl⟩

/-- Claim C2 (code_bug): `If.eval` and `While.eval` test the condition with
Python truthiness instead of the repo's own Lox truthiness `is_truthy`:
with condition value `0` — a number, neither boolean `false` nor nil, and
truthy by `is_truthy` — the else-branch runs instead of the then-branch,
and with condition `""` the while body runs zero iterations. -/
theorem C2_condition_truthiness_bug :
    is_truthy (.num ⟨0, 1⟩) = true ∧ is_truthy (.str "") = true ∧
    evalS 5 (.If (.Literal (.num ⟨0, 1⟩)) (.Print (.Literal (.str "then")))
        (some (.Print (.Literal (.str "else"))))) st0 =
      (.ok .nil, ⟨[[]], ["else"]⟩) ∧
    evalS 5 (.While (.Literal (.str "")) (.Print (.Literal (.str "body")))) st0 =
      (.ok .nil, st0) :=
  ⟨rfl, rfl, rfl, rfl⟩

/-- Claim C3 (code_bug): the arity check exists only in the shadowed first
`def call`, where it reports exactly the claimed message for a 2-parameter
function called with 1 argument without running the body; but the method
actually bound recurses forever on every argument tuple, so no arity
condition is ever signalled at runtime. -/
theorem C3_arity_check_dead :
    callShadowed 9 ["a", "b"] [] [[]] [.nil] [] =
      (.error (.err (.runtimeError "Expected 2 arguments but got 1.")),
        ⟨[[]], []⟩) ∧
    (∀ fuel t, callMeth fuel (.fn "f" ["a", "b"] [] [[]]) t = none) :=
  ⟨rfl, fun fuel t => callMeth_eq_none fuel _ t⟩

/-- Claim C4 (code_bug): the callee and then the arguments are evaluated
left-to-right (third conjunct: both argument assignments take effect, in
order, before the failure), but no call ever reaches a call protocol:
`callable` is false for every runtime value including `LoxFunction`, so
with a function-valued callee the protocol is not invoked, and with a
non-function callee the failure is the AttributeError for the missing
`Call.name` field raised while the TypeError message is being built — the
same error in both cases, not a distinguishable not-callable condition. -/
theorem C4_call_never_dispatches :
    evalE (.Call (.Var "f") []) ⟨[[("f", fn0)]], []⟩ =
      (.error (.err (.attributeError "name")), ⟨[[("f", fn0)]], []⟩) ∧
    evalE (.Call (.Literal (.num ⟨1, 1⟩)) []) st0 =
      (.error (.err (.attributeError "name")), st0) ∧
    evalE (.Call (.Literal .nil)
        [.Assign "x" (.Literal (.num ⟨1, 1⟩)),
         .Assign "x" (.BinOp (.Var "x") (.Literal (.num ⟨1, 1⟩)) .add)])
        ⟨[[("x", .num ⟨0, 1⟩)]], []⟩ =
      (.error (.err (.attributeError "name")),
        ⟨[[("x", .num (Q.add ⟨1, 1⟩ ⟨1, 1⟩))]], []⟩) :=
  ⟨rfl, rfl, rfl⟩

/-- Claim C5 counterexample: `true` and `1` are values of different kinds,
yet `true == 1` evaluates to `true` and `true != 1` to `false` — Python's
`operator.eq` compares a boolean with a number as the int 0 or 1 the
boolean is. -/
theorem C5_cross_kind_counterexample :
    kind (.bool true) ≠ kind (.num ⟨1, 1⟩) ∧
    evalE (.BinOp (.Literal (.bool true)) (.Literal (.num ⟨1, 1⟩)) .eq) st0 =
      (.ok (.bool true), st0) ∧
    evalE (.BinOp (.Literal (.bool true)) (.Literal (.num ⟨1, 1⟩)) .ne) st0 =
      (.ok (.bool false), st0) :=
  ⟨by decide, rfl, rfl⟩

/-- Claim C5 as amended: `==` and `!=` succeed on every pair of values
(first conjunct: applying the equality operators always yields a boolean,
never an error), and values of different kinds compare unequal — except a
boolean compared with a number, which compares as the number 0 or 1 (third
conjunct). -/
theorem C5_eq_total_cross_kind :
    (∀ a b, applyB .eq a b = .ok (.bool (pyEq a b)) ∧
      applyB .ne a b = .ok (.bool (!pyEq a b))) ∧
    (∀ a b, kind a ≠ kind b → boolNumPair a b = false → pyEq a b = false) ∧
    (∀ b q, pyEq (.bool b) (.num q) = Q.beq ⟨if b then 1 else 0, 1⟩ q ∧
      pyEq (.num q) (.bool b) = Q.beq q ⟨if b then 1 else 0, 1⟩) := by
  refine ⟨fun a b => ⟨rfl, rfl⟩, ?_, fun b q => ⟨rfl, rfl⟩⟩
  intro a b hk hbn
  cases a <;> cases b <;> simp_all [pyEq, kind, boolNumPair]

/-- Witness for the amended C5: text `"1"` and the number `1` are of
different kinds and not a boolean-number pair, and indeed compare
unequal. -/
theorem C5_eq_total_cross_kind_witness :
    pyEq (.str "1") (.num ⟨1, 1⟩) = false :=
  C5_eq_total_cross_kind.2.1 (.str "1") (.num ⟨1, 1⟩) (by decide) rfl

/-- Claim C6 (code_bug): unary minus on a number negates it as claimed,
but `!` is `operator.not_` — Python `not` — so on the number `0` and on
empty text it yields `true` where the claim (negation of Lox truthiness,
under which `0` and `""` are truthy) requires `false`. -/
theorem C6_logical_not_python_truthiness :
    (∀ q st, evalE (.UnaryOp .neg (.Literal (.num q))) st =
      (.ok (.num q.neg), st)) ∧
    evalE (.UnaryOp .not_ (.Literal (.num ⟨0, 1⟩))) st0 =
      (.ok (.bool true), st0) ∧
    evalE (.UnaryOp .not_ (.Literal (.str ""))) st0 =
      (.ok (.bool true), st0) ∧
    (∀ v, applyU .not_ v = .ok (.bool (!pyTruthy v))) :=
  ⟨fun _ _ => rfl, rfl, rfl, fun _ => rfl⟩

/-- Claim C7 (confirmed): `and` evaluates its left operand; when the left
value's Lox truthiness is false it is returned with the post-left state
unchanged — the right operand is not evaluated, so none of its effects
occur — and otherwise the result is exactly the right operand's
evaluation; `or` mirrors this with the truthiness test flipped. -/
theorem C7_and_or_short_circuit (L R : Expr) (st st₁ : St) (lv : Value)
    (h : evalE L st = (.ok lv, st₁)) :
    (is_truthy lv = false → evalE (.And L R) st = (.ok lv, st₁)) ∧
    (is_truthy lv = true → evalE (.And L R) st = evalE R st₁) ∧
    (is_truthy lv = true → evalE (.Or L R) st = (.ok lv, st₁)) ∧
    (is_truthy lv = false → evalE (.Or L R) st = evalE R st₁) := by
  refine ⟨fun ht => ?_, fun ht => ?_, fun ht => ?_, fun ht => ?_⟩ <;>
    simp [evalE, h, ht]

/-- Witness for C7: `false and (x = 1)` yields `false` and leaves the
binding of `x` (and the whole state) untouched. -/
theorem C7_short_circuit_witness :
    evalE (.And (.Literal (.bool false)) (.Assign "x" (.Literal (.num ⟨1, 1⟩))))
        ⟨[[("x", .num ⟨0, 1⟩)]], []⟩ =
      (.ok (.bool false), ⟨[[("x", .num ⟨0, 1⟩)]], []⟩) :=
  (C7_and_or_short_circuit (.Literal (.bool false))
    (.Assign "x" (.Literal (.num ⟨1, 1⟩))) ⟨[[("x", .num ⟨0, 1⟩)]], []⟩
    ⟨[[("x", .num ⟨0, 1⟩)]], []⟩ (.bool false) rfl).1 rfl

/-- Claim C8 (confirmed): a print statement emits exactly one line — the
formatted value appended to the output — and the formatting renders
booleans as the words `true` / `false`, nil as `nil`, an integral number as
its plain integer digits with no decimal point (`4` for the value 4.0), a
non-integral number in decimal form (`4.5`), and text verbatim. -/
theorem C8_print_formatting :
    (∀ fuel e st v st₁, evalE e st = (.ok v, st₁) →
      evalS (fuel + 1) (.Print e) st =
        (.ok .nil, ⟨st₁.env, st₁.out ++ [printStr v]⟩)) ∧
    printStr (.bool true) = "true" ∧ printStr (.bool false) = "false" ∧
    printStr .nil = "nil" ∧
    (∀ q, q.isInteger = true →
      printStr (.num q) = intStr q.toInt ∧ '.' ∉ (intStr q.toInt).data) ∧
    printStr (.num ⟨4, 1⟩) = "4" ∧ printStr (.num ⟨9, 2⟩) = "4.5" ∧
    (∀ s, printStr (.str s) = s) := by
  refine ⟨?_, rfl, rfl, rfl, ?_, rfl, rfl, fun s => rfl⟩
  · intro fuel e st v st₁ h
    simp [evalS, h]
  · intro q hq
    exact ⟨by simp [printStr, hq], intStr_no_dot _⟩

/-- Witness for C8: printing the number value 4.5 emits the single line
`4.5`. -/
theorem C8_print_formatting_witness :
    evalS 1 (.Print (.Literal (.num ⟨9, 2⟩))) st0 = (.ok .nil, ⟨[[]], ["4.5"]⟩) :=
  C8_print_formatting.1 0 (.Literal (.num ⟨9, 2⟩)) st0 (.num ⟨9, 2⟩) st0 rfl

/-- Claim C9 (confirmed; environment operations modelled from the spec):
`for_cmd` builds exactly the described desugaring — a block with the
initializer followed by a while loop whose body is the original body with
the increment appended — and running
`for (var i = 0; i < 3; i = i + 1) print i;` from the root state prints the
lines 0, 1, 2 in order and restores the root environment, so `i` is not
bound afterwards: a following `print i;` fails with the undefined-name
condition. -/
theorem C9_for_desugaring :
    forLoop = .Block [.VarDef "i" (some (.Literal (.num ⟨0, 1⟩))),
      .While forCond (.Block [.Print (.Var "i"), .exprStmt forIncr])] ∧
    evalS 40 forLoop st0 = (.ok .nil, ⟨[[]], ["0", "1", "2"]⟩) ∧
    evalSeq 40 [forLoop, .Print (.Var "i")] st0 =
      (.error (.err (.nameError "i")), ⟨[[]], ["0", "1", "2"]⟩) :=
  ⟨rfl, rfl, rfl⟩

/-- Claim C10 (confirmed): an attribute write evaluates the target before
the value — the value expression runs in the state the target's evaluation
produced, and a failing target stops evaluation with the value expression
never run — and the whole expression yields the assigned value (when the
target accepts the write, which a function value does). -/
theorem C10_setattr_order_and_value (o e : Expr) (attr : String) :
    (∀ st ov st₁ v st₂ name ps body c,
      evalE o st = (.ok ov, st₁) → evalE e st₁ = (.ok v, st₂) →
      ov = .fn name ps body c →
      evalE (.Setattr o attr e) st = (.ok v, st₂)) ∧
    (∀ st s st₁, evalE o st = (.error s, st₁) →
      evalE (.Setattr o attr e) st = (.error s, st₁)) := by
  constructor
  · intro st ov st₁ v st₂ name ps body c h₁ h₂ hfn
    subst hfn
    simp [evalE, h₁, h₂]
  · intro st s st₁ h
    simp [evalE, h]

/-- Witness for C10: writing `f.x = 7` with `f` bound to a function value
evaluates to the assigned value 7. -/
theorem C10_setattr_witness :
    evalE (.Setattr (.Var "f") "x" (.Literal (.num ⟨7, 1⟩)))
        ⟨[[("f", fn0)]], []⟩ =
      (.ok (.num ⟨7, 1⟩), ⟨[[("f", fn0)]], []⟩) :=
  (C10_setattr_order_and_value _ _ _).1 _ _ _ _ _ "f" [] [] [[]] rfl rfl rfl

end Lox
